import Mathlib

/-!
A shallow embedding of `src/src-tauri/src/main.rs` of the
televoodoo-viewer repository: the sidecar lifecycle supervisor
(`start_python`, `stop_python`, `cleanup_python`, `find_bundled_python_dir`
and the argument / environment construction they perform).

Modelling conventions:
* Filesystem paths are lists of components; `pathStr` joins them with "/",
  matching how the source displays a `PathBuf`.
* All filesystem queries (`Path::exists`, `resource_dir`, `app_data_dir`)
  are answered by a fixed snapshot carried in `World`.  Mutations performed
  by the bootstrap commands are not reflected in later queries; none of the
  verified properties depend on those later queries.
* Externally observable side effects (directory creation, recursive copy,
  blocking external command runs, the spawn of the worker, signals, kills,
  sleeps and waits) are recorded as an ordered trace of `PEvent` values in
  exactly the order the source performs them.  The recursive helper
  `copy_dir_all` is represented by the single `copyDir` event of its call
  site, since no verified property depends on its internals.
* The `PYTHON_CHILD` mutex is modelled as always acquirable: no code path
  of this program panics while holding the guard, so the mutex is never
  poisoned, and its content is threaded through as an `Option Nat` (the pid
  of the stored child).
* The `f64` rate fields of `StartConfig` are carried as the decimal string
  that `hz.to_string()` produces, because rendering onto the command line
  is the only thing the program ever does with them.
* Outcomes of external calls (the result of `cmd.spawn()`, the status of
  the macOS `import objc` probe, the result of `child.try_wait()`) are
  inputs of the model.
-/

namespace Televoodoo

/-- Filesystem path, as a list of components. -/
abbrev Path := List String

/-- Join path components with "/", as the Display of a path does. -/
def pathStr (p : Path) : String := String.intercalate "/" p

/-- One modification of the environment passed to a `Command`:
`.env(key, val)` or `.env_remove(key)` in the source. -/
inductive EnvOp where
  | set (key val : String)
  | remove (key : String)
deriving DecidableEq

/-- Apply the accumulated env modifications of a `Command` (left to right,
later entries override earlier ones) on top of the inherited environment,
then look up one variable. -/
def applyEnv (ops : List EnvOp) (base : String → Option String) (k : String) :
    Option String :=
  ops.foldl
    (fun acc op =>
      match op with
      | .set key v => if k = key then some v else acc
      | .remove key => if k = key then none else acc)
    (base k)

/-- Signals sent through `libc::kill` in the source. -/
inductive Sig where
  | sigterm
  | sigkill
deriving DecidableEq

/-- Externally observable operations, recorded in program order.
`signal target sig` is `libc::kill(target, sig)`: a negative target
signals the whole process group.  `killChild` is `Child::kill()` (a
forceful kill of the individual child).  `runStatus` is a blocking
`Command::new(exe).args(args).status()` call. -/
inductive PEvent where
  | createDirAll (p : Path)
  | copyDir (src dst : Path)
  | runStatus (exe : String) (args : List String)
  | spawned (exe : String) (args : List String) (cwd : Option Path)
      (env : List EnvOp) (newProcessGroup : Bool) (pid : Nat)
  | killChild (pid : Nat)
  | signal (target : Int) (sig : Sig)
  | sleepMs (ms : Nat)
  | tryWait (pid : Nat)
  | waitChild (pid : Nat)
deriving DecidableEq

/-- True exactly for the spawn event of the worker. -/
def PEvent.isSpawned : PEvent → Bool
  | .spawned _ _ _ _ _ _ => true
  | _ => false

/-- Operations acting on an already-running process: kills, signals,
exit polls and waits. -/
def PEvent.isProcOp : PEvent → Bool
  | .killChild _ => true
  | .signal _ _ => true
  | .tryWait _ => true
  | .waitChild _ => true
  | _ => false

/-- Bootstrap-style side effects: directory creation, recursive copies and
blocking external command runs (venv creation, pip installs, probes). -/
def PEvent.isBootstrapOp : PEvent → Bool
  | .createDirAll _ => true
  | .copyDir _ _ => true
  | .runStatus _ _ => true
  | _ => false

/-- Forceful kills: SIGKILL signals and `Child::kill()`. -/
def PEvent.isForcefulKill : PEvent → Bool
  | .signal _ .sigkill => true
  | .killChild _ => true
  | _ => false

/-- Does the event act on the process with the given pid, either
individually or through its process group? -/
def touchesPid (p : Nat) : PEvent → Bool
  | .killChild q => q == p
  | .signal t _ => t == (p : Int) || t == -(p : Int)
  | .tryWait q => q == p
  | .waitChild q => q == p
  | _ => false

/-- Configuration for starting the Python sidecar (`struct StartConfig`).
The two rate fields carry the decimal rendering that `hz.to_string()`
produces. -/
structure StartConfig where
  connection : String
  name : Option String
  code : Option String
  upsample_hz : Option String
  rate_limit_hz : Option String

/-- Everything one `start_python` call reads from its surroundings:
compile-time cfg flags (`debug_assertions`, `target_os = "macos"`, `unix`),
the compile-time manifest directory, the two application paths, a snapshot
of `Path::exists`, the status of the macOS `import objc` probe (`none`
means the probe command itself failed to run), and the outcome of
`cmd.spawn()` (the pid of the new child, or the spawn error message). -/
structure World where
  debug : Bool
  macos : Bool
  unix : Bool
  manifestDir : Path
  resourceDir : Option Path
  appDataDir : Option Path
  pathExists : Path → Bool
  importObjcOk : Option Bool
  spawn : Except String Nat

/-- Locate the bundled python resources: `resource_dir/python` if it
exists, else `resource_dir/resources/python`, else nothing. -/
def find_bundled_python_dir (w : World) : Option Path :=
  match w.resourceDir with
  | some res =>
    let candidate1 := res ++ ["python"]
    if w.pathExists candidate1 then some candidate1
    else
      let candidate2 := res ++ ["resources", "python"]
      if w.pathExists candidate2 then some candidate2 else none
  | none => none

/-- Worker argument list, exactly as both branches of `start_python` build
it with `cmd.arg` calls: the module invocation, the connection, then each
optional flag only when its field is present. -/
def buildArgs (config : StartConfig) : List String :=
  ["-m", "televoodoo", "--connection", config.connection]
    ++ (match config.name with
        | some n => ["--name", n]
        | none => [])
    ++ (match config.code with
        | some c => ["--code", c]
        | none => [])
    ++ (match config.upsample_hz with
        | some hz => ["--upsample-hz", hz]
        | none => [])
    ++ (match config.rate_limit_hz with
        | some hz => ["--rate-limit-hz", hz]
        | none => [])

/-- Environment modifications of the packaged branch: remove PYTHONHOME,
PYTHONPATH, PYTHONEXECUTABLE and PYTHONUSERBASE, set PYTHONUNBUFFERED=1. -/
def packagedEnvOps : List EnvOp :=
  [EnvOp.remove "PYTHONHOME", EnvOp.remove "PYTHONPATH",
   EnvOp.remove "PYTHONEXECUTABLE", EnvOp.remove "PYTHONUSERBASE",
   EnvOp.set "PYTHONUNBUFFERED" "1"]

/-- Environment modifications of the dev branch: PYTHONPATH is set to the
televoodoo src directory, then PYTHONHOME, PYTHONEXECUTABLE and
PYTHONUSERBASE are removed and PYTHONUNBUFFERED=1 is set. -/
def devEnvOps (src : String) : List EnvOp :=
  [EnvOp.set "PYTHONPATH" src, EnvOp.remove "PYTHONHOME",
   EnvOp.remove "PYTHONEXECUTABLE", EnvOp.remove "PYTHONUSERBASE",
   EnvOp.set "PYTHONUNBUFFERED" "1"]

/-- The macOS-only pyobjc probe: run `python -c "import objc"`; when that
command runs and reports failure, additionally run
`python -m pip install pyobjc`.  Compiled out on other targets. -/
def pyobjcProbe (w : World) (python : String) : List PEvent :=
  if w.macos then
    match w.importObjcOk with
    | some false =>
      [PEvent.runStatus python ["-c", "import objc"],
       PEvent.runStatus python ["-m", "pip", "install", "pyobjc"]]
    | _ => [PEvent.runStatus python ["-c", "import objc"]]
  else []

/-- The packaged-mode bootstrap block (lines 188-219 of the source): if the
runtime venv interpreter under the app data dir does not exist and bundled
resources with a pyproject.toml are found, create the runtime dir, copy the
package tree, create a venv, and (if the venv pip appeared) upgrade pip,
install requirements when present, and install the local package.  Returns
the recorded events and the resolved interpreter. -/
def bootstrapPackaged (w : World) : List PEvent × String :=
  match w.appDataDir with
  | none => ([], "python3")
  | some app_data_dir =>
    let runtime_py_dir := app_data_dir ++ ["python"]
    let runtime_venv_bin := runtime_py_dir ++ [".venv", "bin"]
    let runtime_python := runtime_venv_bin ++ ["python"]
    let runtime_pip := runtime_venv_bin ++ ["pip"]
    let evs :=
      if w.pathExists runtime_python then []
      else
        match find_bundled_python_dir w with
        | some bundled =>
          let televoodoo_dir := bundled ++ ["televoodoo"]
          let pyproject := televoodoo_dir ++ ["pyproject.toml"]
          if w.pathExists pyproject then
            let runtime_televoodoo := runtime_py_dir ++ ["televoodoo"]
            [PEvent.createDirAll runtime_py_dir,
             PEvent.copyDir televoodoo_dir runtime_televoodoo,
             PEvent.runStatus "python3"
               ["-m", "venv", pathStr (runtime_py_dir ++ [".venv"])]]
              ++ (if w.pathExists runtime_pip then
                    [PEvent.runStatus (pathStr runtime_python)
                       ["-m", "pip", "install", "-U", "pip"]]
                      ++ (let req := televoodoo_dir ++ ["requirements.txt"]
                          if w.pathExists req then
                            [PEvent.runStatus (pathStr runtime_python)
                               ["-m", "pip", "install", "-r", pathStr req]]
                          else [])
                      ++ [PEvent.runStatus (pathStr runtime_python)
                            ["-m", "pip", "install", pathStr runtime_televoodoo]]
                  else [])
          else []
        | none => []
    let python :=
      if w.pathExists runtime_python then pathStr runtime_python else "python3"
    (evs, python)

/-- Packaged-mode working directory: the bundled televoodoo dir when it
holds a pyproject.toml; otherwise (only when no bundled python dir was
found at all) the runtime copy under the app data dir when that holds a
pyproject.toml; otherwise the current directory is inherited. -/
def packagedCwd (w : World) : Option Path :=
  match find_bundled_python_dir w with
  | some bundled_py =>
    let televoodoo_bundled := bundled_py ++ ["televoodoo"]
    if w.pathExists (televoodoo_bundled ++ ["pyproject.toml"]) then
      some televoodoo_bundled
    else none
  | none =>
    match w.appDataDir with
    | some app_data_dir =>
      let televoodoo_runtime := app_data_dir ++ ["python", "televoodoo"]
      if w.pathExists (televoodoo_runtime ++ ["pyproject.toml"]) then
        some televoodoo_runtime
      else none
    | none => none

/-- Result of one supervisor call: the returned `Result<(), String>`, the
new content of the `PYTHON_CHILD` slot, and the recorded event trace. -/
abbrev Outcome := Except String Unit × Option Nat × List PEvent

/-- The kill of a previously stored child performed while installing the
new handle: `if let Some(mut old_child) = guard.take() { old_child.kill() }`. -/
def killOldEvents : Option Nat → List PEvent
  | some p => [PEvent.killChild p]
  | none => []

/-- Development branch of `start_python` (lines 66-186 of the source):
resolve the repo root from the manifest dir, pick the dev venv interpreter
when it exists (else `python3`), error out when the televoodoo directory or
its src subdirectory is missing, run the macOS probe, spawn, and then, with
the lock held, kill any previously stored child and store the new one. -/
def start_python_dev (w : World) (config : StartConfig) (old : Option Nat) :
    Outcome :=
  match w.manifestDir with
  | [] => (Except.error "Could not determine repo root", old, [])
  | d :: ds =>
    let repo_root := (d :: ds).dropLast
    let python_dir := repo_root ++ ["python"]
    let dev_python := python_dir ++ [".venv", "bin", "python"]
    let python :=
      if w.pathExists dev_python then pathStr dev_python else "python3"
    let televoodoo_dir := python_dir ++ ["televoodoo"]
    if w.pathExists televoodoo_dir then
      let televoodoo_src := televoodoo_dir ++ ["src"]
      if w.pathExists televoodoo_src then
        let probeEvs := pyobjcProbe w python
        match w.spawn with
        | Except.error e => (Except.error e, old, probeEvs)
        | Except.ok pid =>
          (Except.ok (), some pid,
            probeEvs
              ++ [PEvent.spawned python (buildArgs config) (some televoodoo_dir)
                    (devEnvOps (pathStr televoodoo_src)) w.unix pid]
              ++ killOldEvents old)
      else
        (Except.error
          ("televoodoo src directory not found at: " ++ pathStr (televoodoo_dir ++ ["src"])),
         old, [])
    else
      (Except.error
        ("televoodoo directory not found at: " ++ pathStr televoodoo_dir),
       old, [])

/-- Packaged branch of `start_python` (lines 188-331 of the source):
bootstrap the runtime venv when missing, build the argument list, resolve
the working directory, run the macOS probe, spawn with the packaged env
policy, and then, with the lock held, kill any previously stored child and
store the new one. -/
def start_python_packaged (w : World) (config : StartConfig)
    (old : Option Nat) : Outcome :=
  let bp := bootstrapPackaged w
  let probeEvs := pyobjcProbe w bp.2
  match w.spawn with
  | Except.error e => (Except.error e, old, bp.1 ++ probeEvs)
  | Except.ok pid =>
    (Except.ok (), some pid,
      bp.1 ++ probeEvs
        ++ [PEvent.spawned bp.2 (buildArgs config) (packagedCwd w)
              packagedEnvOps w.unix pid]
        ++ killOldEvents old)

/-- The `start_python` command: the dev branch under `debug_assertions`,
the packaged branch otherwise. -/
def start_python (w : World) (config : StartConfig) (old : Option Nat) :
    Outcome :=
  if w.debug then start_python_dev w config old
  else start_python_packaged w config old

/-- Outcome of `child.try_wait()` after the grace sleep: `exited` is
`Ok(Some(status))`, `running` is `Ok(None)`, `errored` is `Err(e)`. -/
inductive TryWaitResult where
  | exited
  | running
  | errored
deriving DecidableEq

/-- The `cleanup_python` function: take the stored child (leaving the slot
empty).  On unix send SIGTERM to the pid, sleep 100 ms, poll exit; if the
poll reports an exit, stop there; otherwise SIGKILL the process group, then
SIGKILL the pid, then block in `wait`.  Off unix, `Child::kill()` then
`wait`.  With no stored child, do nothing. -/
def cleanup_python (unix : Bool) (child : Option Nat) (tw : TryWaitResult) :
    Option Nat × List PEvent :=
  match child with
  | none => (none, [])
  | some pid =>
    if unix then
      let graceful :=
        [PEvent.signal (pid : Int) Sig.sigterm, PEvent.sleepMs 100,
         PEvent.tryWait pid]
      match tw with
      | .exited => (none, graceful)
      | _ =>
        (none, graceful
          ++ [PEvent.signal (-(pid : Int)) Sig.sigkill,
              PEvent.signal (pid : Int) Sig.sigkill,
              PEvent.waitChild pid])
    else
      (none, [PEvent.killChild pid, PEvent.waitChild pid])

/-- The `stop_python` command: run `cleanup_python` and return `Ok(())`. -/
def stop_python (unix : Bool) (child : Option Nat) (tw : TryWaitResult) :
    Outcome :=
  let c := cleanup_python unix child tw
  (Except.ok (), c.1, c.2)

/-- The property the start-replaces-old claim asserts of a trace: every
operation touching the old pid happens strictly before every spawn event
(the old worker is fully retired before the new one is launched). -/
def retiredBeforeLaunch (evs : List PEvent) (old : Nat) : Prop :=
  ∀ i j : Fin evs.length,
    touchesPid old (evs.get i) = true → (evs.get j).isSpawned = true →
      (i : Nat) < (j : Nat)

instance (evs : List PEvent) (old : Nat) :
    Decidable (retiredBeforeLaunch evs old) := by
  unfold retiredBeforeLaunch
  infer_instance

/-- A packaged-mode world with no app data dir, no resources, a filesystem
where nothing exists, and a spawn that yields pid 9. -/
def packagedWorld : World :=
  { debug := false, macos := false, unix := true, manifestDir := [],
    resourceDir := none, appDataDir := none, pathExists := fun _ => false,
    importObjcOk := none, spawn := Except.ok 9 }

/-- A packaged-mode world where only the runtime venv interpreter exists
under the app data dir. -/
def runtimeWorld : World :=
  { debug := false, macos := false, unix := true, manifestDir := [],
    resourceDir := none, appDataDir := some ["data"],
    pathExists := fun p => p == ["data", "python", ".venv", "bin", "python"],
    importObjcOk := none, spawn := Except.ok 11 }

/-- A development-mode world whose filesystem is empty: the televoodoo
project directory is missing. -/
def devWorld : World :=
  { debug := true, macos := false, unix := true,
    manifestDir := ["", "repo", "src-tauri"], resourceDir := none,
    appDataDir := none, pathExists := fun _ => false,
    importObjcOk := none, spawn := Except.ok 2 }

/-- A packaged-mode world whose spawn fails. -/
def errWorld : World :=
  { debug := false, macos := false, unix := true, manifestDir := [],
    resourceDir := none, appDataDir := none, pathExists := fun _ => false,
    importObjcOk := none, spawn := Except.error "spawn failed" }

/-- A start configuration with only the connection set, to usb. -/
def usbConfig : StartConfig :=
  { connection := "usb", name := none, code := none, upsample_hz := none,
    rate_limit_hz := none }

/-- A start configuration whose connection is not one of wifi, ble, usb. -/
def bogusConfig : StartConfig :=
  { connection := "bogus", name := none, code := none, upsample_hz := none,
    rate_limit_hz := none }

/-- A bootstrap-style event is not a process operation, is not the spawn,
and touches no pid. -/
theorem bootstrapOp_props (e : PEvent) (h : e.isBootstrapOp = true) :
    e.isProcOp = false ∧ e.isSpawned = false ∧ ∀ p, touchesPid p e = false := by
  cases e <;>
    simp_all [PEvent.isBootstrapOp, PEvent.isProcOp, PEvent.isSpawned,
      touchesPid]

/-- Every event the macOS probe records is a bootstrap-style operation. -/
theorem pyobjcProbe_all (w : World) (py : String) :
    (pyobjcProbe w py).all PEvent.isBootstrapOp = true := by
  unfold pyobjcProbe
  repeat' split
  all_goals rfl

/-- Every event the packaged bootstrap block records is a bootstrap-style
operation. -/
theorem bootstrapPackaged_all (w : World) :
    ((bootstrapPackaged w).1).all PEvent.isBootstrapOp = true := by
  unfold bootstrapPackaged
  cases w.appDataDir with
  | none => rfl
  | some d =>
    dsimp only
    repeat' split
    all_goals rfl

/-- Filtering for events that touch a pid drops any all-bootstrap prefix. -/
theorem filter_touches_of_all_bootstrap (old : Nat) (pre : List PEvent)
    (h : pre.all PEvent.isBootstrapOp = true) :
    pre.filter (touchesPid old) = [] := by
  induction pre with
  | nil => rfl
  | cons a l ih =>
    simp only [List.all_cons, Bool.and_eq_true] at h
    have ha := (bootstrapOp_props a h.1).2.2 old
    simp [List.filter_cons, ha, ih h.2]

/-- In packaged mode, `start_python` is exactly: bootstrap events, probe
events, then (on spawn success) the spawn with the packaged argument list,
working directory and env policy, then the kill of the previously stored
child, with the new pid stored; on spawn failure the spawn error is
returned with the slot unchanged. -/
theorem start_packaged_eq (w : World) (cfg : StartConfig) (old : Option Nat)
    (hd : w.debug = false) :
    start_python w cfg old =
      match w.spawn with
      | Except.error e =>
        (Except.error e, old,
          (bootstrapPackaged w).1 ++ pyobjcProbe w (bootstrapPackaged w).2)
      | Except.ok pid =>
        (Except.ok (), some pid,
          (bootstrapPackaged w).1 ++ pyobjcProbe w (bootstrapPackaged w).2
            ++ [PEvent.spawned (bootstrapPackaged w).2 (buildArgs cfg)
                  (packagedCwd w) packagedEnvOps w.unix pid]
            ++ killOldEvents old) := by
  unfold start_python start_python_packaged
  rw [hd]
  cases w.spawn <;> rfl

/-- Shape of every successful `start_python` call: the spawn succeeded, the
new pid is stored, and the trace is an all-bootstrap prefix, then the
spawn, then (for a previously stored child) its kill. -/
theorem start_ok_shape (w : World) (cfg : StartConfig) (old : Option Nat)
    (h : (start_python w cfg old).1 = Except.ok ()) :
    ∃ pid exe cwd env pre,
      w.spawn = Except.ok pid ∧
      pre.all PEvent.isBootstrapOp = true ∧
      start_python w cfg old =
        (Except.ok (), some pid,
          pre ++ [PEvent.spawned exe (buildArgs cfg) cwd env w.unix pid]
            ++ killOldEvents old) := by
  generalize hG : start_python w cfg old = out at h ⊢
  unfold start_python start_python_dev start_python_packaged at hG
  split at hG
  · -- development branch
    split at hG
    · rw [← hG] at h; simp at h
    · dsimp only at hG
      split at hG
      · split at hG
        · split at hG
          · rw [← hG] at h; simp at h
          · rename_i pid heq
            exact ⟨pid, _, _, _, _, heq,
              pyobjcProbe_all w _, hG.symm⟩
        · rw [← hG] at h; simp at h
      · rw [← hG] at h; simp at h
  · -- packaged branch
    split at hG
    · rw [← hG] at h; simp at h
    · rename_i pid heq
      dsimp only at hG
      refine ⟨pid, _, _, _, _, heq, ?_, hG.symm⟩
      simp [List.all_append, bootstrapPackaged_all, pyobjcProbe_all]

/-- Shape of every failed `start_python` call: the stored child is
unchanged and the trace is all bootstrap-style events (so the old worker
received no signal and nothing was spawned). -/
theorem start_err_shape (w : World) (cfg : StartConfig) (old : Option Nat)
    (e : String) (h : (start_python w cfg old).1 = Except.error e) :
    (start_python w cfg old).2.1 = old ∧
    ∃ pre, pre.all PEvent.isBootstrapOp = true ∧
      (start_python w cfg old).2.2 = pre := by
  generalize hG : start_python w cfg old = out at h ⊢
  unfold start_python start_python_dev start_python_packaged at hG
  split at hG
  · split at hG
    · exact ⟨by rw [← hG], [], rfl, by rw [← hG]⟩
    · dsimp only at hG
      split at hG
      · split at hG
        · split at hG
          · exact ⟨by rw [← hG], _, pyobjcProbe_all w _, by rw [← hG]⟩
          · rw [← hG] at h; simp at h
        · exact ⟨by rw [← hG], [], rfl, by rw [← hG]⟩
      · exact ⟨by rw [← hG], [], rfl, by rw [← hG]⟩
  · split at hG
    · refine ⟨by rw [← hG],
        (bootstrapPackaged w).1 ++ pyobjcProbe w (bootstrapPackaged w).2,
        ?_, by rw [← hG]⟩
      simp [List.all_append, bootstrapPackaged_all, pyobjcProbe_all]
    · rw [← hG] at h; simp at h

/-- C1 (counterexample): in a concrete packaged-mode world with stored
child 7 and a successful spawn, it is false that the old handle is retired
before the new worker is launched: the trace spawns the new worker first
and only then kills the old one. -/
theorem start_kills_old_after_spawn_cex :
    ¬ retiredBeforeLaunch ((start_python packagedWorld usbConfig (some 7)).2.2) 7 := by
  decide

/-- C1 (amended): when start is called while a handle is current and the
call succeeds, the trace is: bootstrap-style events, then the spawn of the
new worker, then a single forceful `Child::kill` of the old pid as the very
last event; the old pid receives no other signal and is never waited on,
so old and new worker can be transiently alive at the same time. -/
theorem start_new_spawn_precedes_old_kill (w : World) (cfg : StartConfig)
    (old : Nat) (hok : (start_python w cfg (some old)).1 = Except.ok ()) :
    ∃ pre e,
      (start_python w cfg (some old)).2.2 = pre ++ [e, PEvent.killChild old] ∧
      e.isSpawned = true ∧
      (∀ x ∈ pre, x.isProcOp = false) ∧
      (start_python w cfg (some old)).2.2.filter (touchesPid old) =
        [PEvent.killChild old] := by
  obtain ⟨pid, exe, cwd, env, pre, hs, hall, heq⟩ :=
    start_ok_shape w cfg (some old) hok
  refine ⟨pre, PEvent.spawned exe (buildArgs cfg) cwd env w.unix pid,
    ?_, rfl, ?_, ?_⟩
  · rw [heq]
    simp [killOldEvents, List.append_assoc]
  · intro x hx
    exact (bootstrapOp_props x (List.all_eq_true.mp hall x hx)).1
  · rw [heq]
    simp [killOldEvents, List.filter_append,
      filter_touches_of_all_bootstrap old pre hall, List.filter_cons,
      touchesPid]

/-- C1 (amended) witness at a concrete world. -/
theorem start_new_spawn_precedes_old_kill_witness :
    ∃ pre e,
      (start_python packagedWorld usbConfig (some 7)).2.2 =
        pre ++ [e, PEvent.killChild 7] ∧
      e.isSpawned = true ∧
      (∀ x ∈ pre, x.isProcOp = false) ∧
      (start_python packagedWorld usbConfig (some 7)).2.2.filter
        (touchesPid 7) = [PEvent.killChild 7] :=
  start_new_spawn_precedes_old_kill packagedWorld usbConfig 7 rfl

/-- C2: unix termination on a held handle sends SIGTERM to the pid, sleeps
100 ms, polls exit without blocking; if the poll reports an exit no
forceful kill of any kind ever happens, and otherwise the trace ends with
SIGKILL to the process group, SIGKILL to the pid, and a blocking wait, all
recorded before stop returns. -/
theorem cleanup_escalation_sequence (p : Nat) (tw : TryWaitResult) :
    ((stop_python true (some p) tw).2.2).take 3 =
      [PEvent.signal (p : Int) Sig.sigterm, PEvent.sleepMs 100,
       PEvent.tryWait p] ∧
    (tw = TryWaitResult.exited →
      (stop_python true (some p) tw).2.2 =
        [PEvent.signal (p : Int) Sig.sigterm, PEvent.sleepMs 100,
         PEvent.tryWait p] ∧
      ∀ e ∈ (stop_python true (some p) tw).2.2, e.isForcefulKill = false) ∧
    (tw ≠ TryWaitResult.exited →
      (stop_python true (some p) tw).2.2 =
        [PEvent.signal (p : Int) Sig.sigterm, PEvent.sleepMs 100,
         PEvent.tryWait p, PEvent.signal (-(p : Int)) Sig.sigkill,
         PEvent.signal (p : Int) Sig.sigkill, PEvent.waitChild p]) := by
  cases tw <;>
    simp [stop_python, cleanup_python, PEvent.isForcefulKill]

/-- C2 witness: both the graceful-exit trace and the escalated trace at
concrete pids. -/
theorem cleanup_escalation_sequence_witness :
    (stop_python true (some 3) TryWaitResult.exited).2.2 =
      [PEvent.signal 3 Sig.sigterm, PEvent.sleepMs 100, PEvent.tryWait 3] ∧
    (stop_python true (some 5) TryWaitResult.running).2.2 =
      [PEvent.signal 5 Sig.sigterm, PEvent.sleepMs 100, PEvent.tryWait 5,
       PEvent.signal (-5) Sig.sigkill, PEvent.signal 5 Sig.sigkill,
       PEvent.waitChild 5] :=
  ⟨((cleanup_escalation_sequence 3 TryWaitResult.exited).2.1 rfl).1,
   (cleanup_escalation_sequence 5 TryWaitResult.running).2.2 (by decide)⟩

/-- C4: start either returns success, in which case the spawn succeeded and
exactly its new pid is installed as current, or returns an error, in which
case the current slot is unchanged. -/
theorem start_installs_iff_ok (w : World) (cfg : StartConfig)
    (old : Option Nat) :
    ((start_python w cfg old).1 = Except.ok () →
      ∃ pid, w.spawn = Except.ok pid ∧
        (start_python w cfg old).2.1 = some pid) ∧
    (∀ e, (start_python w cfg old).1 = Except.error e →
      (start_python w cfg old).2.1 = old) := by
  constructor
  · intro h
    obtain ⟨pid, exe, cwd, env, pre, hs, hall, heq⟩ :=
      start_ok_shape w cfg old h
    exact ⟨pid, hs, by rw [heq]⟩
  · intro e h
    exact (start_err_shape w cfg old e h).1

/-- C4 witness at a concrete world. -/
theorem start_installs_iff_ok_witness :
    ∃ pid, packagedWorld.spawn = Except.ok pid ∧
      (start_python packagedWorld usbConfig (some 7)).2.1 = some pid :=
  (start_installs_iff_ok packagedWorld usbConfig (some 7)).1 rfl

/-- C5: stop with no current handle returns success, leaves the slot empty
and records no events at all; stop with a current handle returns success
and leaves the slot empty; stop never returns an error. -/
theorem stop_idempotent_noop (u : Bool) (tw : TryWaitResult) (p : Nat) :
    stop_python u none tw = (Except.ok (), none, []) ∧
    (stop_python u (some p) tw).1 = Except.ok () ∧
    (stop_python u (some p) tw).2.1 = none := by
  refine ⟨rfl, rfl, ?_⟩
  cases u <;> cases tw <;> rfl

/-- C10: when the spawn fails, the current slot is unchanged, start returns
an error (in packaged mode the spawn error itself), and the trace contains
no process operation: in particular the old worker receives no signal. -/
theorem spawn_failure_preserves_state (w : World) (cfg : StartConfig)
    (old : Option Nat) (e : String) (h : w.spawn = Except.error e) :
    (start_python w cfg old).2.1 = old ∧
    (∃ msg, (start_python w cfg old).1 = Except.error msg) ∧
    (w.debug = false → (start_python w cfg old).1 = Except.error e) ∧
    (∀ ev ∈ (start_python w cfg old).2.2, ev.isProcOp = false) := by
  have hres : ∃ msg, (start_python w cfg old).1 = Except.error msg := by
    cases hr : (start_python w cfg old).1 with
    | ok u =>
      cases u
      obtain ⟨pid, exe, cwd, env, pre, hs, hall, heq⟩ :=
        start_ok_shape w cfg old hr
      rw [h] at hs
      simp at hs
    | error msg => exact ⟨msg, rfl⟩
  obtain ⟨msg, hmsg⟩ := hres
  obtain ⟨hstate, pre, hall, htrace⟩ := start_err_shape w cfg old msg hmsg
  refine ⟨hstate, ⟨msg, hmsg⟩, fun hd => ?_, fun ev hev => ?_⟩
  · rw [start_packaged_eq w cfg old hd, h]
  · rw [htrace] at hev
    exact (bootstrapOp_props ev (List.all_eq_true.mp hall ev hev)).1

/-- C10 witness at a concrete world whose spawn fails. -/
theorem spawn_failure_preserves_state_witness :
    (start_python errWorld usbConfig (some 7)).2.1 = some 7 ∧
    (∃ msg, (start_python errWorld usbConfig (some 7)).1 =
      Except.error msg) ∧
    (errWorld.debug = false →
      (start_python errWorld usbConfig (some 7)).1 =
        Except.error "spawn failed") ∧
    (∀ ev ∈ (start_python errWorld usbConfig (some 7)).2.2,
      ev.isProcOp = false) :=
  spawn_failure_preserves_state errWorld usbConfig (some 7) "spawn failed" rfl

/-- C3 (counterexample): with the connection set to "bogus", which is not
in the set wifi, ble, usb, start performs no validation: it succeeds and a
worker process is spawned carrying the invalid value verbatim. -/
theorem invalid_connection_still_spawns_cex :
    (start_python packagedWorld bogusConfig none).1 = Except.ok () ∧
    (start_python packagedWorld bogusConfig none).2.2 =
      [PEvent.spawned "python3" ["-m", "televoodoo", "--connection", "bogus"]
        none packagedEnvOps true 9] := by
  constructor <;> rfl

/-- C3 (amended): start performs no StartConfig validation at all: for
every configuration, valid or not, in packaged mode with a successful
spawn, start succeeds and the worker is launched with the configuration
rendered verbatim into the argument list. -/
theorem start_passes_config_unvalidated (w : World) (cfg : StartConfig)
    (old : Option Nat) (pid : Nat) (hd : w.debug = false)
    (hs : w.spawn = Except.ok pid) :
    (start_python w cfg old).1 = Except.ok () ∧
    PEvent.spawned (bootstrapPackaged w).2 (buildArgs cfg) (packagedCwd w)
        packagedEnvOps w.unix pid ∈ (start_python w cfg old).2.2 := by
  rw [start_packaged_eq w cfg old hd, hs]
  exact ⟨rfl, by simp [List.mem_append]⟩

/-- C3 (amended) witness at the invalid configuration. -/
theorem start_passes_config_unvalidated_witness :
    (start_python packagedWorld bogusConfig none).1 = Except.ok () ∧
    PEvent.spawned (bootstrapPackaged packagedWorld).2 (buildArgs bogusConfig)
        (packagedCwd packagedWorld) packagedEnvOps packagedWorld.unix 9
      ∈ (start_python packagedWorld bogusConfig none).2.2 :=
  start_passes_config_unvalidated packagedWorld bogusConfig none 9 rfl rfl

/-- C6: when the runtime venv interpreter already exists under the app data
dir, the whole copy / venv-create / pip-install block records no event, and
(off macOS, packaged mode) the whole start call records no bootstrap-style
operation at all: a second bootstrap run over an already-populated runtime
environment performs zero copy or install operations. -/
theorem bootstrap_skipped_when_runtime_present (w : World) (d : Path)
    (cfg : StartConfig) (old : Option Nat) (hd : w.appDataDir = some d)
    (hx : w.pathExists (d ++ ["python"] ++ [".venv", "bin"] ++ ["python"]) =
      true) :
    (bootstrapPackaged w).1 = [] ∧
    (w.debug = false → w.macos = false →
      ∀ e ∈ (start_python w cfg old).2.2, e.isBootstrapOp = false) := by
  have hboot : (bootstrapPackaged w).1 = [] := by
    unfold bootstrapPackaged
    rw [hd]
    dsimp only
    rw [hx]
    rfl
  refine ⟨hboot, fun hdbg hmac e he => ?_⟩
  rw [start_packaged_eq w cfg old hdbg] at he
  have hprobe : pyobjcProbe w (bootstrapPackaged w).2 = [] := by
    unfold pyobjcProbe
    rw [hmac]
    rfl
  cases hs : w.spawn with
  | error e2 =>
    rw [hs] at he
    dsimp only at he
    rw [hboot, hprobe] at he
    simp at he
  | ok pid =>
    rw [hs] at he
    dsimp only at he
    rw [hboot, hprobe] at he
    cases old with
    | none => simp [killOldEvents] at he; subst he; rfl
    | some p =>
      simp [killOldEvents] at he
      rcases he with rfl | rfl <;> rfl

/-- C6 witness at a concrete world whose runtime interpreter exists. -/
theorem bootstrap_skipped_when_runtime_present_witness :
    (bootstrapPackaged runtimeWorld).1 = [] ∧
    (runtimeWorld.debug = false → runtimeWorld.macos = false →
      ∀ e ∈ (start_python runtimeWorld usbConfig none).2.2,
        e.isBootstrapOp = false) :=
  bootstrap_skipped_when_runtime_present runtimeWorld ["data"] usbConfig
    none rfl rfl

/-- The flag strings of the optional StartConfig fields. -/
def flagTokens : List String :=
  ["--name", "--code", "--upsample-hz", "--rate-limit-hz"]

/-- C7: the argument list always starts with the module invocation and the
connection flag carrying the configured value; provided none of the config
values collides with a flag string, each optional flag occurs in the list
exactly when its field is present; and the usb-only configuration yields
exactly the module flag and the connection pair. -/
theorem args_flags_iff_fields (cfg : StartConfig)
    (hc : ∀ f ∈ flagTokens, f ≠ cfg.connection)
    (hn : ∀ f ∈ flagTokens, ∀ v, cfg.name = some v → f ≠ v)
    (hcd : ∀ f ∈ flagTokens, ∀ v, cfg.code = some v → f ≠ v)
    (hu : ∀ f ∈ flagTokens, ∀ v, cfg.upsample_hz = some v → f ≠ v)
    (hr : ∀ f ∈ flagTokens, ∀ v, cfg.rate_limit_hz = some v → f ≠ v) :
    ((buildArgs cfg).take 4 =
      ["-m", "televoodoo", "--connection", cfg.connection]) ∧
    ("--name" ∈ buildArgs cfg ↔ cfg.name.isSome = true) ∧
    ("--code" ∈ buildArgs cfg ↔ cfg.code.isSome = true) ∧
    ("--upsample-hz" ∈ buildArgs cfg ↔ cfg.upsample_hz.isSome = true) ∧
    ("--rate-limit-hz" ∈ buildArgs cfg ↔ cfg.rate_limit_hz.isSome = true) ∧
    buildArgs usbConfig = ["-m", "televoodoo", "--connection", "usb"] := by
  obtain ⟨conn, nm, cd, up, rt⟩ := cfg
  simp only [flagTokens, List.mem_cons, List.not_mem_nil, forall_eq_or_imp,
    forall_eq, or_false] at hc hn hcd hu hr
  obtain ⟨hc1, hc2, hc3, hc4⟩ := hc
  cases nm <;> cases cd <;> cases up <;> cases rt <;>
    simp only [Option.some.injEq, forall_eq, forall_false,
      reduceCtorEq, false_implies, forall_const, true_and,
      and_true] at hn hcd hu hr <;>
    refine ⟨rfl, ?_, ?_, ?_, ?_, rfl⟩ <;>
    simp_all [buildArgs]

/-- A fully populated start configuration. -/
def fullConfig : StartConfig :=
  { connection := "wifi", name := some "dev", code := some "1234",
    upsample_hz := some "90", rate_limit_hz := some "120" }

/-- C7 witness at a fully populated configuration. -/
theorem args_flags_iff_fields_witness :
    ((buildArgs fullConfig).take 4 =
      ["-m", "televoodoo", "--connection", "wifi"]) ∧
    ("--name" ∈ buildArgs fullConfig ↔ fullConfig.name.isSome = true) := by
  have h := args_flags_iff_fields fullConfig
    (by decide) (by decide) (by decide) (by decide) (by decide)
  exact ⟨h.1, h.2.1⟩

/-- C8: in the worker environment of the packaged branch, PYTHONHOME,
PYTHONEXECUTABLE and PYTHONUSERBASE are unset, PYTHONUNBUFFERED is "1",
and PYTHONPATH is removed; in the dev branch, the same holds except that
PYTHONPATH is set (to the televoodoo src directory); and the packaged
spawn event carries exactly the packaged env policy. -/
theorem env_var_policy (base : String → Option String) (src : String)
    (w : World) (cfg : StartConfig) (old : Option Nat) (pid : Nat) :
    applyEnv packagedEnvOps base "PYTHONHOME" = none ∧
    applyEnv packagedEnvOps base "PYTHONEXECUTABLE" = none ∧
    applyEnv packagedEnvOps base "PYTHONUSERBASE" = none ∧
    applyEnv packagedEnvOps base "PYTHONPATH" = none ∧
    applyEnv packagedEnvOps base "PYTHONUNBUFFERED" = some "1" ∧
    applyEnv (devEnvOps src) base "PYTHONHOME" = none ∧
    applyEnv (devEnvOps src) base "PYTHONEXECUTABLE" = none ∧
    applyEnv (devEnvOps src) base "PYTHONUSERBASE" = none ∧
    applyEnv (devEnvOps src) base "PYTHONPATH" = some src ∧
    applyEnv (devEnvOps src) base "PYTHONUNBUFFERED" = some "1" ∧
    (w.debug = false → w.spawn = Except.ok pid →
      PEvent.spawned (bootstrapPackaged w).2 (buildArgs cfg) (packagedCwd w)
          packagedEnvOps w.unix pid ∈ (start_python w cfg old).2.2) := by
  refine ⟨rfl, rfl, rfl, rfl, rfl, rfl, rfl, rfl, rfl, rfl,
    fun hd hs => ?_⟩
  rw [start_packaged_eq w cfg old hd, hs]
  simp [List.mem_append]

/-- C8 witness at a concrete base environment and world. -/
theorem env_var_policy_witness :
    applyEnv packagedEnvOps (fun _ => some "x") "PYTHONHOME" = none ∧
    applyEnv (devEnvOps "/repo/python/televoodoo/src") (fun _ => some "x")
      "PYTHONPATH" = some "/repo/python/televoodoo/src" ∧
    PEvent.spawned (bootstrapPackaged packagedWorld).2 (buildArgs usbConfig)
        (packagedCwd packagedWorld) packagedEnvOps packagedWorld.unix 9
      ∈ (start_python packagedWorld usbConfig none).2.2 := by
  have h := env_var_policy (fun _ => some "x")
    "/repo/python/televoodoo/src" packagedWorld usbConfig none 9
  exact ⟨h.1, h.2.2.2.2.2.2.2.2.1, h.2.2.2.2.2.2.2.2.2.2 rfl rfl⟩

/-- C9 (counterexample): in development mode with the project package
directory missing, resolution does not fall back: start returns an error
before anything is spawned, contradicting never-errors-in-both-modes. -/
theorem dev_resolution_errors_cex :
    (start_python devWorld usbConfig none).1 =
      Except.error "televoodoo directory not found at: /repo/python/televoodoo" ∧
    (start_python devWorld usbConfig none).2.2 = [] := by
  constructor <;> rfl

/-- A development-mode world where the project televoodoo directory exists
but its src subdirectory does not. -/
def devSrcWorld : World :=
  { debug := true, macos := false, unix := true,
    manifestDir := ["", "repo", "src-tauri"], resourceDir := none,
    appDataDir := none,
    pathExists := fun p => p == ["", "repo", "python", "televoodoo"],
    importObjcOk := none, spawn := Except.ok 3 }

/-- A development-mode world where the televoodoo directory and its src
subdirectory exist but the dev venv interpreter does not. -/
def devOkWorld : World :=
  { debug := true, macos := false, unix := true,
    manifestDir := ["", "repo", "src-tauri"], resourceDir := none,
    appDataDir := none,
    pathExists := fun p =>
      p == ["", "repo", "python", "televoodoo"]
        || p == ["", "repo", "python", "televoodoo", "src"],
    importObjcOk := none, spawn := Except.ok 6 }

/-- C9 (amended): in packaged mode resolution never errors: the call fails
exactly when the spawn fails, and with nothing on disk the interpreter
falls back to the generic "python3" and the working directory is
inherited. In development mode: a missing televoodoo project directory, or
a missing src subdirectory, makes start return an error before any spawn;
a missing dev venv interpreter alone does not error but falls back to the
generic "python3" interpreter for the spawn. -/
theorem resolution_fallback_packaged (w : World) (cfg : StartConfig)
    (old : Option Nat) :
    (w.debug = false →
      ((start_python w cfg old).1 =
          match w.spawn with
          | Except.ok _ => Except.ok ()
          | Except.error e => Except.error e) ∧
      ((∀ p, w.pathExists p = false) →
        (bootstrapPackaged w).2 = "python3" ∧ packagedCwd w = none)) ∧
    (∀ d ds, w.debug = true → w.manifestDir = d :: ds →
      (w.pathExists ((d :: ds).dropLast ++ ["python"] ++ ["televoodoo"]) =
          false →
        (start_python w cfg old).1 =
          Except.error ("televoodoo directory not found at: "
            ++ pathStr ((d :: ds).dropLast ++ ["python"] ++ ["televoodoo"]))) ∧
      (w.pathExists ((d :: ds).dropLast ++ ["python"] ++ ["televoodoo"]) =
          true →
        w.pathExists
            ((d :: ds).dropLast ++ ["python"] ++ ["televoodoo"] ++ ["src"]) =
          false →
        (start_python w cfg old).1 =
          Except.error ("televoodoo src directory not found at: "
            ++ pathStr
              ((d :: ds).dropLast ++ ["python"] ++ ["televoodoo"] ++ ["src"]))) ∧
      (∀ pid,
        w.pathExists
            ((d :: ds).dropLast ++ ["python"] ++ [".venv", "bin", "python"]) =
          false →
        w.pathExists ((d :: ds).dropLast ++ ["python"] ++ ["televoodoo"]) =
          true →
        w.pathExists
            ((d :: ds).dropLast ++ ["python"] ++ ["televoodoo"] ++ ["src"]) =
          true →
        w.spawn = Except.ok pid →
        PEvent.spawned "python3" (buildArgs cfg)
            (some ((d :: ds).dropLast ++ ["python"] ++ ["televoodoo"]))
            (devEnvOps (pathStr
              ((d :: ds).dropLast ++ ["python"] ++ ["televoodoo"] ++ ["src"])))
            w.unix pid
          ∈ (start_python w cfg old).2.2)) := by
  constructor
  · intro hd
    constructor
    · rw [start_packaged_eq w cfg old hd]
      cases w.spawn <;> rfl
    · intro hall
      cases had : w.appDataDir <;> cases hrd : w.resourceDir <;>
        simp [bootstrapPackaged, packagedCwd, find_bundled_python_dir,
          had, hrd, hall]
  · intro d ds hd hm
    refine ⟨fun htv => ?_, fun htv hsrc => ?_,
      fun pid hvenv htv hsrc hs => ?_⟩
    · unfold start_python start_python_dev
      rw [hd, hm]
      dsimp only
      rw [htv]
      rfl
    · unfold start_python start_python_dev
      rw [hd, hm]
      dsimp only
      rw [htv, hsrc]
      rfl
    · unfold start_python start_python_dev
      rw [hd, hm]
      dsimp only
      rw [hvenv, htv, hsrc, hs]
      simp [List.mem_append]

/-- C9 (amended) witness: the packaged fallback at a concrete empty
filesystem, the two development errors, and the development python3
fallback spawn, at concrete worlds. -/
theorem resolution_fallback_packaged_witness :
    (bootstrapPackaged packagedWorld).2 = "python3" ∧
    packagedCwd packagedWorld = none ∧
    (start_python devWorld bogusConfig none).1 =
      Except.error "televoodoo directory not found at: /repo/python/televoodoo" ∧
    (start_python devSrcWorld usbConfig none).1 =
      Except.error "televoodoo src directory not found at: /repo/python/televoodoo/src" ∧
    PEvent.spawned "python3" (buildArgs usbConfig)
        (some ["", "repo", "python", "televoodoo"])
        (devEnvOps "/repo/python/televoodoo/src") devOkWorld.unix 6
      ∈ (start_python devOkWorld usbConfig none).2.2 := by
  have h1 :=
    ((resolution_fallback_packaged packagedWorld usbConfig none).1 rfl).2
      (fun p => rfl)
  have h2 := ((resolution_fallback_packaged devWorld bogusConfig none).2
    "" ["repo", "src-tauri"] rfl rfl).1 rfl
  have h3 := ((resolution_fallback_packaged devSrcWorld usbConfig none).2
    "" ["repo", "src-tauri"] rfl rfl).2.1 rfl rfl
  have h4 := ((resolution_fallback_packaged devOkWorld usbConfig none).2
    "" ["repo", "src-tauri"] rfl rfl).2.2 6 rfl rfl rfl rfl
  exact ⟨h1.1, h1.2, h2.trans (by rfl), h3.trans (by rfl), h4⟩

end Televoodoo
